import Mathlib

/-!
Shallow embedding of the `src/recommender` package (features.py, candidates.py,
train.py, metrics.py) of the CS116 next-basket prediction pipeline.

Modelling conventions, used throughout:
* a polars relation is a `List` of row structures; `LazyFrame`/`DataFrame`
  laziness is immaterial to the value-level semantics and is dropped;
* timestamps (`created_date`, window boundaries) are whole days as `Int`;
* float scores and float-valued features are embedded as `ℚ`;
* `group_by(k).agg(...)` is embedded as a function of the key returning the
  aggregate of the rows carrying that key, `none` when the key has no rows
  (mirroring the absence of a group row); a left join against such a grouped
  frame followed by `fill_null(0)` is `(f key).getD 0`;
* polars `.unique()` / `n_unique` are `List.dedup` / `n_unique` below;
* a left join against item metadata yields `Option`-valued attributes
  (`none` for an item missing from `items`), and grouped/joined keys compare
  those `Option` values for equality (null matches null);
* polars `sort` is stable; it is embedded with `List.insertionSort`, which
  inserts an element before the first strictly-later element it may precede,
  hence is stable for the total preorders used here;
* `Expr.rank("dense")` ranks the *values* of the expression within the window
  in ascending order, independently of the frame's current row order: the dense
  rank of value `v` is `1 +` the number of distinct strictly-smaller values.
-/

/-- One purchase event: row of the `transactions` relation
(`customer_id`, `item_id`, `created_date`, `order_id`). -/
structure Txn where
  customer_id : Int
  item_id : Int
  created_date : Int
  order_id : Int
deriving DecidableEq, Repr

/-- Row of the `items` metadata relation. -/
structure Item where
  item_id : Int
  brand : String
  age_group : String
  category : String
deriving DecidableEq, Repr

/-- Row of the `users` metadata relation (unused by the feature builder,
kept for signature faithfulness). -/
structure Customer where
  customer_id : Int
  date_of_birth : Option Int
deriving DecidableEq, Repr

/-- Output row of `build_feature_label_table`: `customer_id`, `item_id`,
features `X1`..`X13` and the binary label `Y`. -/
structure FeatureRow where
  customer_id : Int
  item_id : Int
  X1_brand_cnt_hist : Nat
  X2_age_group_cnt_hist : Nat
  X3_category_cnt_hist : Nat
  X4_days_since_last_purchase : Int
  X5_purchase_frequency : ℚ
  X6_is_power_user : Nat
  X7_avg_items_per_purchase : ℚ
  X8_top_brand_ratio : ℚ
  X9_brand_diversity : Nat
  X10_category_diversity_score : ℚ
  X11_purchase_day_mode : Int
  X12_is_new_customer : Nat
  X13_avg_item_popularity : ℚ
  Y : Nat
deriving DecidableEq, Repr

/-- Number of distinct values of a list (`polars` `n_unique`). -/
def n_unique {α : Type} [DecidableEq α] (l : List α) : Nat :=
  l.dedup.length

/-- The rows of `hist` belonging to customer `c`: the group of key `c`
under `group_by("customer_id")`. -/
def histOf (hist : List Txn) (c : Int) : List Txn :=
  hist.filter (fun t => t.customer_id == c)

/-- Left join of an `item_id` against `items`, projecting `brand`
(first match; `none` when the item is absent). -/
def brandOf (items : List Item) (i : Int) : Option String :=
  (items.find? (fun it => it.item_id == i)).map Item.brand

/-- As `brandOf`, projecting `age_group`. -/
def age_groupOf (items : List Item) (i : Int) : Option String :=
  (items.find? (fun it => it.item_id == i)).map Item.age_group

/-- As `brandOf`, projecting `category`. -/
def categoryOf (items : List Item) (i : Int) : Option String :=
  (items.find? (fun it => it.item_id == i)).map Item.category

/-- First value of maximal multiplicity, in first-occurrence order
(`sort` by count descending, then `first`). -/
def modeFirst {α : Type} [DecidableEq α] (l : List α) : Option α :=
  l.dedup.foldl (fun acc x =>
    match acc with
    | none => some x
    | some y => if l.count y < l.count x then some x else acc) none

/-- `_build_candidate_features`, X1: count of customer `c`'s historical
purchases whose item shares candidate item `i`'s brand. -/
def X1_of (hist : List Txn) (items : List Item) (c i : Int) : Nat :=
  ((histOf hist c).filter (fun t => brandOf items t.item_id == brandOf items i)).length

/-- `_build_candidate_features`, X2: same as `X1_of` by `age_group`. -/
def X2_of (hist : List Txn) (items : List Item) (c i : Int) : Nat :=
  ((histOf hist c).filter (fun t => age_groupOf items t.item_id == age_groupOf items i)).length

/-- `_build_candidate_features`, X3: same as `X1_of` by `category`. -/
def X3_of (hist : List Txn) (items : List Item) (c i : Int) : Nat :=
  ((histOf hist c).filter (fun t => categoryOf items t.item_id == categoryOf items i)).length

/-- `_compute_recency_features`: `end_hist - max(created_date)` over the
customer's historical purchases; no group row when the customer has none. -/
def X4_of (hist : List Txn) (end_hist : Int) (c : Int) : Option Int :=
  match (histOf hist c).map Txn.created_date with
  | [] => none
  | d :: ds => some (end_hist - ds.foldl max d)

/-- `days_active` of `_compute_frequency_features`:
`n_unique(created_date)` per customer. -/
def days_active (hist : List Txn) (c : Int) : Nat :=
  n_unique ((histOf hist c).map Txn.created_date)

/-- The divisor of X5 and X7: `days_active.clip(1)`, i.e. `max(days_active, 1)`. -/
def days_active_clipped (hist : List Txn) (c : Int) : Nat :=
  max (days_active hist c) 1

/-- `total_purchases` per customer (`pl.count()` over the customer group),
the divisor of X8 and X10. -/
def total_purchases (hist : List Txn) (c : Int) : Nat :=
  (histOf hist c).length

/-- `_compute_frequency_features`, X5: `num_purchases / days_active.clip(1)`. -/
def X5_of (hist : List Txn) (c : Int) : Option ℚ :=
  if histOf hist c = [] then none
  else some ((total_purchases hist c : ℚ) / (days_active_clipped hist c : ℚ))

/-- `_compute_frequency_features`, X6: `num_purchases > 13`. -/
def X6_of (hist : List Txn) (c : Int) : Option Nat :=
  if histOf hist c = [] then none
  else some (if 13 < (histOf hist c).length then 1 else 0)

/-- `_compute_monetary_features`, X7:
`total_unique_items / num_purchase_days.clip(1)`. -/
def X7_of (hist : List Txn) (c : Int) : Option ℚ :=
  if histOf hist c = [] then none
  else some ((n_unique ((histOf hist c).map Txn.item_id) : ℚ) / (days_active_clipped hist c : ℚ))

/-- The customer's historical purchases projected to (left-joined) brand. -/
def brand_list (hist : List Txn) (items : List Item) (c : Int) : List (Option String) :=
  (histOf hist c).map (fun t => brandOf items t.item_id)

/-- `top_brand` of `_compute_brand_loyalty_features`: the count of the
most-purchased brand (first row after sorting brand counts descending). -/
def top_brand_count (hist : List Txn) (items : List Item) (c : Int) : Nat :=
  ((brand_list hist items c).dedup.map (fun b => (brand_list hist items c).count b)).foldl max 0

/-- `_compute_brand_loyalty_features`, X8: `top_brand_count / total_purchases`. -/
def X8_of (hist : List Txn) (items : List Item) (c : Int) : Option ℚ :=
  if histOf hist c = [] then none
  else some ((top_brand_count hist items c : ℚ) / (total_purchases hist c : ℚ))

/-- `_compute_brand_loyalty_features`, X9: `n_unique(brand)` per customer. -/
def X9_of (hist : List Txn) (items : List Item) (c : Int) : Option Nat :=
  if histOf hist c = [] then none
  else some (n_unique (brand_list hist items c))

/-- `_compute_category_diversity_features`, X10:
`unique_categories / total_purchases`. -/
def X10_of (hist : List Txn) (items : List Item) (c : Int) : Option ℚ :=
  if histOf hist c = [] then none
  else some ((n_unique ((histOf hist c).map (fun t => categoryOf items t.item_id)) : ℚ) /
    (total_purchases hist c : ℚ))

/-- `_compute_temporal_features`, X11: the day-of-week of maximal purchase
count (sort by count descending, take first; ties by encounter order). -/
def X11_of (hist : List Txn) (c : Int) : Option Int :=
  modeFirst ((histOf hist c).map (fun t => t.created_date % 7))

/-- `_compute_cold_start_features`, X12: `num_purchases < 3`. -/
def X12_of (hist : List Txn) (c : Int) : Option Nat :=
  if histOf hist c = [] then none
  else some (if (histOf hist c).length < 3 then 1 else 0)

/-- `item_popularity`: global purchase count of an item in the
historical window. -/
def item_popularity (hist : List Txn) (i : Int) : Nat :=
  (hist.filter (fun t => t.item_id == i)).length

/-- `_compute_cold_start_features`, X13: mean of `item_popularity` over the
customer's historical purchases. -/
def X13_of (hist : List Txn) (c : Int) : Option ℚ :=
  if histOf hist c = [] then none
  else some ((((histOf hist c).map (fun t => (item_popularity hist t.item_id : ℚ))).sum) /
    (total_purchases hist c : ℚ))

/-- One output row of `build_feature_label_table` for candidate `(c, i)`:
candidate-level X1..X3, customer-level X4..X13 left-joined on `customer_id`
with `fill_null(0)`, and label `Y` left-joined on the pair with `fill_null(0)`. -/
def feature_row (hist : List Txn) (recent_pairs : List (Int × Int)) (items : List Item)
    (end_hist : Int) (c i : Int) : FeatureRow where
  customer_id := c
  item_id := i
  X1_brand_cnt_hist := X1_of hist items c i
  X2_age_group_cnt_hist := X2_of hist items c i
  X3_category_cnt_hist := X3_of hist items c i
  X4_days_since_last_purchase := (X4_of hist end_hist c).getD 0
  X5_purchase_frequency := (X5_of hist c).getD 0
  X6_is_power_user := (X6_of hist c).getD 0
  X7_avg_items_per_purchase := (X7_of hist c).getD 0
  X8_top_brand_ratio := (X8_of hist items c).getD 0
  X9_brand_diversity := (X9_of hist items c).getD 0
  X10_category_diversity_score := (X10_of hist items c).getD 0
  X11_purchase_day_mode := (X11_of hist c).getD 0
  X12_is_new_customer := (X12_of hist c).getD 0
  X13_avg_item_popularity := (X13_of hist c).getD 0
  Y := if (c, i) ∈ recent_pairs then 1 else 0

/-- Global purchase-count ranking used by the popular-items candidate source:
distinct items of `hist` sorted by count descending (stable), first 50. -/
def top_items_50 (hist : List Txn) : List Int :=
  ((hist.map Txn.item_id).dedup.insertionSort
    (fun a b => item_popularity hist b ≤ item_popularity hist a)).take 50

/-- `_generate_candidates_for_features`: union of (a) label-window positives,
(b) top-50 popular historical items cross-joined with historical customers,
(c) items of historically purchased categories, capped at 200 per customer by
`rank("random")`. The random rank is modelled by the oracle `cat_rank`
(an arbitrary rank assignment supplied as a parameter). -/
def generate_candidates_for_features (hist recent : List Txn) (items : List Item)
    (cat_rank : Int → Int → Nat) : List (Int × Int) :=
  let positives := (recent.map (fun t => (t.customer_id, t.item_id))).dedup
  let popular_candidates :=
    ((hist.map Txn.customer_id).dedup.map
      (fun c => (top_items_50 hist).map (fun i => (c, i)))).flatten
  let customer_categories :=
    (hist.map (fun t => (t.customer_id, categoryOf items t.item_id))).dedup
  let category_candidates :=
    ((customer_categories.map (fun p =>
      (items.filter (fun it => some it.category == p.2)).map
        (fun it => (p.1, it.item_id)))).flatten).filter
      (fun q => cat_rank q.1 q.2 ≤ 200)
  (positives ++ popular_candidates ++ category_candidates).dedup

/-- Half-open time-window filter `[b, e)` on `created_date`. -/
def window_filter (transactions : List Txn) (b e : Int) : List Txn :=
  transactions.filter (fun t => decide (b ≤ t.created_date) && decide (t.created_date < e))

/-- `_build_labels_for_features`: deduplicated label-window pairs (`Y = 1`). -/
def labels_of (recent : List Txn) : List (Int × Int) :=
  (recent.map (fun t => (t.customer_id, t.item_id))).dedup

/-- `build_feature_label_table`: filter the two windows, take the supplied
candidates or generate defaults, and emit one `FeatureRow` per candidate.
The function performs no validation of the window boundaries, exactly as in
the source. `users` is an argument the source never reads. -/
def build_feature_label_table (transactions : List Txn) (items : List Item)
    (users : List Customer)
    (begin_hist end_hist begin_recent end_recent : Int)
    (cat_rank : Int → Int → Nat)
    (candidates : Option (List (Int × Int))) : List FeatureRow :=
  let hist := window_filter transactions begin_hist end_hist
  let recent := window_filter transactions begin_recent end_recent
  let cands := candidates.getD (generate_candidates_for_features hist recent items cat_rank)
  cands.map (fun p => feature_row hist (labels_of recent) items end_hist p.1 p.2)

/-- Output row of `build_item_cooccurrence`. -/
structure CoocRow where
  itemA : Int
  itemB : Int
  cooc_count : Nat
deriving DecidableEq, Repr

/-- `build_item_cooccurrence` with a single basket-key column (the key is
extracted by `key`): deduplicate `(key, item_id)` rows, self-join on the key,
keep pairs with `item_id < item_id_right`, count per ordered-by-`<` pair and
sort by count descending. -/
def build_item_cooccurrence (transactions : List Txn) (key : Txn → Int) : List CoocRow :=
  let baskets := (transactions.map (fun t => (key t, t.item_id))).dedup
  let pairs :=
    ((baskets.map (fun b =>
      (baskets.filter (fun b2 => b2.1 == b.1)).map (fun b2 => (b.2, b2.2)))).flatten)
  let filtered := pairs.filter (fun p => p.1 < p.2)
  (filtered.dedup.map (fun p => CoocRow.mk p.1 p.2 (filtered.count p))).insertionSort
    (fun r1 r2 => r2.cooc_count ≤ r1.cooc_count)

/-- The summed co-occurrence weight `total_cooc` that
`generate_candidates_from_cooc` aggregates for customer `c` and candidate
item `i`: forward matches (customer bought `itemA`, candidate `itemB`) plus
backward matches, summed over the customer's historical items. -/
def total_cooc (customer_hist_items : List (Int × Int)) (cooc : List CoocRow)
    (c i : Int) : Nat :=
  (((customer_hist_items.filter (fun p => p.1 == c)).map (fun p =>
    ((cooc.filter (fun r => r.itemA == p.2 && r.itemB == i)).map CoocRow.cooc_count).sum +
    ((cooc.filter (fun r => r.itemB == p.2 && r.itemA == i)).map CoocRow.cooc_count).sum)).sum)

/-- Dense ascending rank of the value `i` among the values `l` carries for
key `c` (the semantics of `Expr.rank("dense").over(key)` applied to a value
column): one plus the number of distinct strictly smaller values. -/
def dense_rank_value (l : List (Int × Int)) (c i : Int) : Nat :=
  1 + (((l.filter (fun p => p.1 == c)).map Prod.snd).dedup.filter (fun v => v < i)).length

/-- `generate_candidates_from_cooc`: join the customer's historical items with
the co-occurrence table in both directions, sum `cooc_count` per
(customer, candidate item), sort by summed weight descending, then keep rows
whose `rank("dense")` — computed on the `candidate_item` column, as in the
source — is at most `topn_per_customer`. -/
def generate_candidates_from_cooc (customer_hist_items : List (Int × Int))
    (cooc : List CoocRow) (topn_per_customer : Nat) : List (Int × Int) :=
  let forward :=
    ((customer_hist_items.map (fun p =>
      (cooc.filter (fun r => r.itemA == p.2)).map
        (fun r => (p.1, r.itemB, r.cooc_count)))).flatten)
  let backward :=
    ((customer_hist_items.map (fun p =>
      (cooc.filter (fun r => r.itemB == p.2)).map
        (fun r => (p.1, r.itemA, r.cooc_count)))).flatten)
  let all_candidates := forward ++ backward
  let keys := (all_candidates.map (fun r => (r.1, r.2.1))).dedup
  let aggregated := keys.map (fun k => (k.1, k.2, total_cooc customer_hist_items cooc k.1 k.2))
  let sorted := aggregated.insertionSort
    (fun r1 r2 => r1.1 < r2.1 ∨ (r1.1 = r2.1 ∧ r2.2.2 ≤ r1.2.2))
  (sorted.filter (fun r =>
    dense_rank_value (sorted.map (fun s => (s.1, s.2.1))) r.1 r.2.1 ≤ topn_per_customer)).map
    (fun r => (r.1, r.2.1))

/-- Output row of `predict_and_rank`. -/
structure ScoredRow where
  customer_id : Int
  item_id : Int
  score : ℚ
  rank : Nat
deriving DecidableEq, Repr

/-- `predict_and_rank`: score every `(customer_id, item_id)` row with the
(opaque) model, sort by customer ascending then score descending, attach the
`rank` column — computed in the source as `rank("dense")` on the *item*
column over each customer — and, when `top_k` is given, keep rows with
`rank ≤ top_k`. -/
def predict_and_rank (rows : List (Int × Int)) (model : Int × Int → ℚ)
    (top_k : Option Nat) : List ScoredRow :=
  let scored := rows.map (fun p => (p.1, p.2, model p))
  let sorted := scored.insertionSort
    (fun r1 r2 => r1.1 < r2.1 ∨ (r1.1 = r2.1 ∧ r2.2.2 ≤ r1.2.2))
  let ranked := sorted.map (fun r =>
    ScoredRow.mk r.1 r.2.1 r.2.2
      (dense_rank_value (sorted.map (fun s => (s.1, s.2.1))) r.1 r.2.1))
  match top_k with
  | none => ranked
  | some k => ranked.filter (fun r => r.rank ≤ k)

/-- Prediction row consumed by the metrics (`customer_id`, `item_id`, `score`). -/
structure PredRow where
  customer_id : Int
  item_id : Int
  score : ℚ
deriving DecidableEq, Repr

/-- Ground-truth row consumed by the metrics. -/
structure GtRow where
  customer_id : Int
  item_id : Int
deriving DecidableEq, Repr

/-- The per-customer top-K prediction list of the metrics: the source sorts by
(`customer_id` asc, `score` desc) and then aggregates `head(k)` per customer,
which for each customer is its own rows stably sorted by score descending,
truncated to `k`. -/
def top_k_items (predictions : List PredRow) (k : Nat) (c : Int) : List Int :=
  (((predictions.filter (fun r => r.customer_id == c)).insertionSort
    (fun r1 r2 => r2.score ≤ r1.score)).map PredRow.item_id).take k

/-- The customer's ground-truth item set (`actual_items`, as a set). -/
def actual_items (ground_truth : List GtRow) (c : Int) : List Int :=
  ((ground_truth.filter (fun r => r.customer_id == c)).map GtRow.item_id).dedup

/-- The customers the metric loops over: the inner join of the grouped
predictions with the grouped ground truth, i.e. customers having at least
one prediction row *and* at least one ground-truth row. -/
def joined_customers (predictions : List PredRow) (ground_truth : List GtRow) : List Int :=
  ((predictions.map PredRow.customer_id).dedup).filter
    (fun c => (ground_truth.map GtRow.customer_id).contains c)

/-- Per-customer `precision = |predicted_set ∩ actual_set| / k`
(`0` when `k = 0`, matching the source guard, since `x / 0 = 0` in `ℚ`). -/
def precision_per_customer (predictions : List PredRow) (ground_truth : List GtRow)
    (k : Nat) (c : Int) : ℚ :=
  (((top_k_items predictions k c).dedup.filter
    (fun i => (actual_items ground_truth c).contains i)).length : ℚ) / (k : ℚ)

/-- Per-customer `recall = |predicted_set ∩ actual_set| / |actual_set|`
(`0` when the customer has no ground-truth items). -/
def recall_per_customer (predictions : List PredRow) (ground_truth : List GtRow)
    (k : Nat) (c : Int) : ℚ :=
  (((top_k_items predictions k c).dedup.filter
    (fun i => (actual_items ground_truth c).contains i)).length : ℚ) /
    ((actual_items ground_truth c).length : ℚ)

/-- `precision_at_k` of metrics.py: mean of `precision_per_customer` over the
inner-joined customers, `0` when that join is empty. -/
def precision_at_k (predictions : List PredRow) (ground_truth : List GtRow) (k : Nat) : ℚ :=
  let cs := joined_customers predictions ground_truth
  if cs = [] then 0
  else ((cs.map (precision_per_customer predictions ground_truth k)).sum) / (cs.length : ℚ)

/-- `recall_at_k` of metrics.py: mean of `recall_per_customer` over the
inner-joined customers, `0` when that join is empty. -/
def recall_at_k (predictions : List PredRow) (ground_truth : List GtRow) (k : Nat) : ℚ :=
  let cs := joined_customers predictions ground_truth
  if cs = [] then 0
  else ((cs.map (recall_per_customer predictions ground_truth k)).sum) / (cs.length : ℚ)

/-- Modelled from the spec: the averaging rule the specification states for
the metrics — the unweighted mean over *all* customers having at least one
prediction row (ground truth or not), here for precision. Used only to compare
against the implementation `precision_at_k`. -/
def precision_at_k_spec (predictions : List PredRow) (ground_truth : List GtRow)
    (k : Nat) : ℚ :=
  let cs := (predictions.map PredRow.customer_id).dedup
  if cs = [] then 0
  else ((cs.map (precision_per_customer predictions ground_truth k)).sum) / (cs.length : ℚ)

/-- Per-customer DCG of `ndcg_at_k` in metrics.py: positions are 0-based over
the top-K list, and a hit at position `i` contributes `1 / log2(i + 2)`. -/
noncomputable def dcg_per_customer (predictions : List PredRow) (ground_truth : List GtRow)
    (k : Nat) (c : Int) : ℝ :=
  (((top_k_items predictions k c).enum).map (fun p =>
    if (actual_items ground_truth c).contains p.2 then
      (1 : ℝ) / Real.logb 2 ((p.1 : ℝ) + 2)
    else 0)).sum

/-- The ideal DCG of `ndcg_at_k`:
`sum(1 / log2(i + 2) for i in range(num_relevant))`. -/
noncomputable def idcg_of (num_relevant : Nat) : ℝ :=
  ((List.range num_relevant).map (fun i => (1 : ℝ) / Real.logb 2 ((i : ℝ) + 2))).sum

/-- Per-customer NDCG: `dcg / idcg` when `idcg > 0` else `0`, with
`num_relevant = min(|actual_set|, k)`. -/
noncomputable def ndcg_per_customer (predictions : List PredRow) (ground_truth : List GtRow)
    (k : Nat) (c : Int) : ℝ :=
  if 0 < idcg_of (min (actual_items ground_truth c).length k) then
    dcg_per_customer predictions ground_truth k c /
      idcg_of (min (actual_items ground_truth c).length k)
  else 0

/-- `ndcg_at_k` of metrics.py: mean of the per-customer NDCG over the
inner-joined customers, `0` when that join is empty. -/
noncomputable def ndcg_at_k (predictions : List PredRow) (ground_truth : List GtRow)
    (k : Nat) : ℝ :=
  let cs := joined_customers predictions ground_truth
  if cs = [] then 0
  else ((cs.map (ndcg_per_customer predictions ground_truth k)).sum) / (cs.length : ℝ)

/-- Per-customer average precision of `mean_average_precision_at_k`: a fold
over the 0-based-enumerated top-K list accumulating `(hits, precision sum)` —
a hit at position `i` increments `hits` and adds `hits / (i + 1)` — with the
final sum divided by `min(|actual_set|, k)`. -/
def ap_per_customer (predictions : List PredRow) (ground_truth : List GtRow)
    (k : Nat) (c : Int) : ℚ :=
  let acc := ((top_k_items predictions k c).enum).foldl
    (fun (acc : Nat × ℚ) p =>
      if (actual_items ground_truth c).contains p.2 then
        (acc.1 + 1, acc.2 + ((acc.1 + 1 : Nat) : ℚ) / ((p.1 + 1 : Nat) : ℚ))
      else acc) (0, 0)
  acc.2 / ((min (actual_items ground_truth c).length k : Nat) : ℚ)

/-- `mean_average_precision_at_k` of metrics.py: mean of `ap_per_customer`
over the inner-joined customers whose ground-truth set is nonempty (the
source skips a customer with an empty `actual_set`), `0` when no customer
remains. -/
def mean_average_precision_at_k (predictions : List PredRow) (ground_truth : List GtRow)
    (k : Nat) : ℚ :=
  let cs := (joined_customers predictions ground_truth).filter
    (fun c => !(actual_items ground_truth c).isEmpty)
  if cs = [] then 0
  else ((cs.map (ap_per_customer predictions ground_truth k)).sum) / (cs.length : ℚ)

/-- Membership in the label table: a pair carries a label row exactly when some
transaction of that pair falls in the half-open label window. -/
theorem mem_labels_iff (transactions : List Txn) (b e c i : Int) :
    (c, i) ∈ labels_of (window_filter transactions b e) ↔
      ∃ t ∈ transactions, t.customer_id = c ∧ t.item_id = i ∧
        b ≤ t.created_date ∧ t.created_date < e := by
  simp only [labels_of, window_filter, List.mem_dedup, List.mem_map, List.mem_filter,
    Bool.and_eq_true, decide_eq_true_eq, Prod.mk.injEq]
  constructor
  · rintro ⟨t, ⟨ht, hb, he⟩, hc, hi⟩
    exact ⟨t, ht, hc, hi, hb, he⟩
  · rintro ⟨t, ht, hc, hi, hb, he⟩
    exact ⟨t, ⟨ht, hb, he⟩, hc, hi⟩

/-- Claim C2: in every output row of `build_feature_label_table`, `Y = 1` iff
the row's `(customer_id, item_id)` pair occurs in some transaction whose
`created_date` lies in `[begin_recent, end_recent)`; every other row has
`Y = 0`, and `Y` takes no value besides 0 and 1. -/
theorem claim_C2 (transactions : List Txn) (items : List Item) (users : List Customer)
    (begin_hist end_hist begin_recent end_recent : Int)
    (cat_rank : Int → Int → Nat) (candidates : Option (List (Int × Int)))
    (r : FeatureRow)
    (hr : r ∈ build_feature_label_table transactions items users
      begin_hist end_hist begin_recent end_recent cat_rank candidates) :
    (r.Y = 1 ↔ ∃ t ∈ transactions, t.customer_id = r.customer_id ∧ t.item_id = r.item_id ∧
      begin_recent ≤ t.created_date ∧ t.created_date < end_recent) ∧
    (r.Y = 0 ∨ r.Y = 1) := by
  simp only [build_feature_label_table, List.mem_map] at hr
  obtain ⟨p, hp, rfl⟩ := hr
  have hY : (feature_row (window_filter transactions begin_hist end_hist)
      (labels_of (window_filter transactions begin_recent end_recent)) items end_hist p.1 p.2).Y
      = if (p.1, p.2) ∈ labels_of (window_filter transactions begin_recent end_recent)
        then 1 else 0 := rfl
  constructor
  · rw [hY]
    by_cases h : (p.1, p.2) ∈ labels_of (window_filter transactions begin_recent end_recent)
    · exact iff_of_true (by rw [if_pos h])
        ((mem_labels_iff transactions begin_recent end_recent p.1 p.2).1 h)
    · refine iff_of_false (by rw [if_neg h]; decide) ?_
      intro hex
      exact h ((mem_labels_iff transactions begin_recent end_recent p.1 p.2).2 hex)
  · rw [hY]
    by_cases h : (p.1, p.2) ∈ labels_of (window_filter transactions begin_recent end_recent)
    · right; rw [if_pos h]
    · left; rw [if_neg h]

/-- Witness for C2 at a concrete input: one transaction at day 5, windows
`[0,5)` and `[5,10)`, candidate `(1,10)`; the produced row has `Y = 1` and the
transaction witnesses the label-window purchase. -/
theorem claim_C2_witness :
    ((⟨1, 10, 0, 0, 0, 0, 0, 0, 0, 0, 0, 0, 0, 0, 0, 1⟩ : FeatureRow).Y = 1 ↔
      ∃ t ∈ [(⟨1, 10, 5, 1⟩ : Txn)], t.customer_id = (1 : Int) ∧ t.item_id = (10 : Int) ∧
        (5 : Int) ≤ t.created_date ∧ t.created_date < (10 : Int)) ∧
    ((1 : Nat) = 0 ∨ (1 : Nat) = 1) := by
  have h := claim_C2 [⟨1, 10, 5, 1⟩] [] [] 0 5 5 10 (fun _ _ => 1) (some [(1, 10)])
    ⟨1, 10, 0, 0, 0, 0, 0, 0, 0, 0, 0, 0, 0, 0, 0, 1⟩ (by decide)
  exact h

/-- Claim C4: with `candidates = None`, every `(customer_id, item_id)` pair
purchased inside the label window appears as a row of the output feature
table, and that row carries `Y = 1`. -/
theorem claim_C4 (transactions : List Txn) (items : List Item) (users : List Customer)
    (begin_hist end_hist begin_recent end_recent : Int)
    (cat_rank : Int → Int → Nat) (c i : Int)
    (h : ∃ t ∈ transactions, t.customer_id = c ∧ t.item_id = i ∧
      begin_recent ≤ t.created_date ∧ t.created_date < end_recent) :
    ∃ r ∈ build_feature_label_table transactions items users
      begin_hist end_hist begin_recent end_recent cat_rank none,
      r.customer_id = c ∧ r.item_id = i ∧ r.Y = 1 := by
  have hmem : (c, i) ∈ labels_of (window_filter transactions begin_recent end_recent) :=
    (mem_labels_iff transactions begin_recent end_recent c i).2 h
  have hcand : (c, i) ∈ generate_candidates_for_features
      (window_filter transactions begin_hist end_hist)
      (window_filter transactions begin_recent end_recent) items cat_rank := by
    simp only [generate_candidates_for_features, List.mem_dedup, List.mem_append]
    left; left
    simpa [labels_of, List.mem_dedup] using hmem
  refine ⟨feature_row (window_filter transactions begin_hist end_hist)
    (labels_of (window_filter transactions begin_recent end_recent)) items end_hist c i,
    ?_, rfl, rfl, ?_⟩
  · simp only [build_feature_label_table, List.mem_map, Option.getD]
    exact ⟨(c, i), hcand, rfl⟩
  · show (if (c, i) ∈ labels_of (window_filter transactions begin_recent end_recent)
      then 1 else 0) = 1
    rw [if_pos hmem]

/-- Witness for C4 at a concrete input: customer 3 buys item 7 at day 6 inside
the label window `[5,10)`; the default-candidate feature table contains the
pair with `Y = 1`. -/
theorem claim_C4_witness :
    (∃ t ∈ [(⟨3, 7, 6, 1⟩ : Txn)], t.customer_id = (3 : Int) ∧ t.item_id = (7 : Int) ∧
      (5 : Int) ≤ t.created_date ∧ t.created_date < (10 : Int)) ∧
    ∃ r ∈ build_feature_label_table [(⟨3, 7, 6, 1⟩ : Txn)] [] [] 0 5 5 10
      (fun _ _ => 1) none, r.customer_id = (3 : Int) ∧ r.item_id = (7 : Int) ∧ r.Y = 1 := by
  refine ⟨by decide, claim_C4 [⟨3, 7, 6, 1⟩] [] [] 0 5 5 10 (fun _ _ => 1) 3 7 (by decide)⟩

/-- Claim C3: the customer-level features X4..X13 are identical on any two
output rows of `build_feature_label_table` that share a `customer_id`
(broadcast invariant of the left join on `customer_id`). -/
theorem claim_C3 (transactions : List Txn) (items : List Item) (users : List Customer)
    (begin_hist end_hist begin_recent end_recent : Int)
    (cat_rank : Int → Int → Nat) (candidates : Option (List (Int × Int)))
    (r r' : FeatureRow)
    (hr : r ∈ build_feature_label_table transactions items users
      begin_hist end_hist begin_recent end_recent cat_rank candidates)
    (hr' : r' ∈ build_feature_label_table transactions items users
      begin_hist end_hist begin_recent end_recent cat_rank candidates)
    (hc : r.customer_id = r'.customer_id) :
    r.X4_days_since_last_purchase = r'.X4_days_since_last_purchase ∧
    r.X5_purchase_frequency = r'.X5_purchase_frequency ∧
    r.X6_is_power_user = r'.X6_is_power_user ∧
    r.X7_avg_items_per_purchase = r'.X7_avg_items_per_purchase ∧
    r.X8_top_brand_ratio = r'.X8_top_brand_ratio ∧
    r.X9_brand_diversity = r'.X9_brand_diversity ∧
    r.X10_category_diversity_score = r'.X10_category_diversity_score ∧
    r.X11_purchase_day_mode = r'.X11_purchase_day_mode ∧
    r.X12_is_new_customer = r'.X12_is_new_customer ∧
    r.X13_avg_item_popularity = r'.X13_avg_item_popularity := by
  simp only [build_feature_label_table, List.mem_map] at hr hr'
  obtain ⟨p, hp, rfl⟩ := hr
  obtain ⟨q, hq, rfl⟩ := hr'
  have hpq : p.1 = q.1 := hc
  simp [feature_row, hpq]

/-- Witness for C3 at a concrete input: two candidate rows `(1,5)` and `(1,6)`
of the same customer over empty transactions have identical X4..X13. -/
theorem claim_C3_witness :
    (⟨1, 5, 0, 0, 0, 0, 0, 0, 0, 0, 0, 0, 0, 0, 0, 0⟩ : FeatureRow).X4_days_since_last_purchase =
      (⟨1, 6, 0, 0, 0, 0, 0, 0, 0, 0, 0, 0, 0, 0, 0, 0⟩ : FeatureRow).X4_days_since_last_purchase ∧
    (⟨1, 5, 0, 0, 0, 0, 0, 0, 0, 0, 0, 0, 0, 0, 0, 0⟩ : FeatureRow).X5_purchase_frequency =
      (⟨1, 6, 0, 0, 0, 0, 0, 0, 0, 0, 0, 0, 0, 0, 0, 0⟩ : FeatureRow).X5_purchase_frequency ∧
    (⟨1, 5, 0, 0, 0, 0, 0, 0, 0, 0, 0, 0, 0, 0, 0, 0⟩ : FeatureRow).X6_is_power_user =
      (⟨1, 6, 0, 0, 0, 0, 0, 0, 0, 0, 0, 0, 0, 0, 0, 0⟩ : FeatureRow).X6_is_power_user ∧
    (⟨1, 5, 0, 0, 0, 0, 0, 0, 0, 0, 0, 0, 0, 0, 0, 0⟩ : FeatureRow).X7_avg_items_per_purchase =
      (⟨1, 6, 0, 0, 0, 0, 0, 0, 0, 0, 0, 0, 0, 0, 0, 0⟩ : FeatureRow).X7_avg_items_per_purchase ∧
    (⟨1, 5, 0, 0, 0, 0, 0, 0, 0, 0, 0, 0, 0, 0, 0, 0⟩ : FeatureRow).X8_top_brand_ratio =
      (⟨1, 6, 0, 0, 0, 0, 0, 0, 0, 0, 0, 0, 0, 0, 0, 0⟩ : FeatureRow).X8_top_brand_ratio ∧
    (⟨1, 5, 0, 0, 0, 0, 0, 0, 0, 0, 0, 0, 0, 0, 0, 0⟩ : FeatureRow).X9_brand_diversity =
      (⟨1, 6, 0, 0, 0, 0, 0, 0, 0, 0, 0, 0, 0, 0, 0, 0⟩ : FeatureRow).X9_brand_diversity ∧
    (⟨1, 5, 0, 0, 0, 0, 0, 0, 0, 0, 0, 0, 0, 0, 0, 0⟩ : FeatureRow).X10_category_diversity_score =
      (⟨1, 6, 0, 0, 0, 0, 0, 0, 0, 0, 0, 0, 0, 0, 0, 0⟩ : FeatureRow).X10_category_diversity_score ∧
    (⟨1, 5, 0, 0, 0, 0, 0, 0, 0, 0, 0, 0, 0, 0, 0, 0⟩ : FeatureRow).X11_purchase_day_mode =
      (⟨1, 6, 0, 0, 0, 0, 0, 0, 0, 0, 0, 0, 0, 0, 0, 0⟩ : FeatureRow).X11_purchase_day_mode ∧
    (⟨1, 5, 0, 0, 0, 0, 0, 0, 0, 0, 0, 0, 0, 0, 0, 0⟩ : FeatureRow).X12_is_new_customer =
      (⟨1, 6, 0, 0, 0, 0, 0, 0, 0, 0, 0, 0, 0, 0, 0, 0⟩ : FeatureRow).X12_is_new_customer ∧
    (⟨1, 5, 0, 0, 0, 0, 0, 0, 0, 0, 0, 0, 0, 0, 0, 0⟩ : FeatureRow).X13_avg_item_popularity =
      (⟨1, 6, 0, 0, 0, 0, 0, 0, 0, 0, 0, 0, 0, 0, 0, 0⟩ : FeatureRow).X13_avg_item_popularity :=
  claim_C3 [] [] [] 0 1 1 2 (fun _ _ => 1) (some [(1, 5), (1, 6)])
    ⟨1, 5, 0, 0, 0, 0, 0, 0, 0, 0, 0, 0, 0, 0, 0, 0⟩
    ⟨1, 6, 0, 0, 0, 0, 0, 0, 0, 0, 0, 0, 0, 0, 0, 0⟩
    (by decide) (by decide) (by decide)

/-- Claim C9: a customer with no transactions in the historical window but with
a candidate pair keeps that candidate's row in the output, with all of X1..X13
filled with 0. -/
theorem claim_C9 (transactions : List Txn) (items : List Item) (users : List Customer)
    (begin_hist end_hist begin_recent end_recent : Int)
    (cat_rank : Int → Int → Nat) (cands : List (Int × Int)) (c i : Int)
    (hmem : (c, i) ∈ cands)
    (hempty : histOf (window_filter transactions begin_hist end_hist) c = []) :
    ∃ r ∈ build_feature_label_table transactions items users
      begin_hist end_hist begin_recent end_recent cat_rank (some cands),
      r.customer_id = c ∧ r.item_id = i ∧
      r.X1_brand_cnt_hist = 0 ∧ r.X2_age_group_cnt_hist = 0 ∧ r.X3_category_cnt_hist = 0 ∧
      r.X4_days_since_last_purchase = 0 ∧ r.X5_purchase_frequency = 0 ∧
      r.X6_is_power_user = 0 ∧ r.X7_avg_items_per_purchase = 0 ∧
      r.X8_top_brand_ratio = 0 ∧ r.X9_brand_diversity = 0 ∧
      r.X10_category_diversity_score = 0 ∧ r.X11_purchase_day_mode = 0 ∧
      r.X12_is_new_customer = 0 ∧ r.X13_avg_item_popularity = 0 := by
  refine ⟨feature_row (window_filter transactions begin_hist end_hist)
    (labels_of (window_filter transactions begin_recent end_recent)) items end_hist c i,
    ?_, ?_⟩
  · simp only [build_feature_label_table, List.mem_map, Option.getD]
    exact ⟨(c, i), hmem, rfl⟩
  · simp [feature_row, X1_of, X2_of, X3_of, X4_of, X5_of, X6_of, X7_of, X8_of, X9_of,
      X10_of, X11_of, X12_of, X13_of, hempty, modeFirst]

/-- Witness for C9 at a concrete input: only customer 2 has (label-window)
activity; candidate `(1,10)` of activity-free customer 1 is retained with all
features 0. -/
theorem claim_C9_witness :
    ((1, 10) ∈ [((1 : Int), (10 : Int))]) ∧
    histOf (window_filter [(⟨2, 10, 7, 1⟩ : Txn)] 0 5) 1 = [] ∧
    ∃ r ∈ build_feature_label_table [(⟨2, 10, 7, 1⟩ : Txn)] [] [] 0 5 5 10
      (fun _ _ => 1) (some [(1, 10)]),
      r.customer_id = 1 ∧ r.item_id = 10 ∧
      r.X1_brand_cnt_hist = 0 ∧ r.X2_age_group_cnt_hist = 0 ∧ r.X3_category_cnt_hist = 0 ∧
      r.X4_days_since_last_purchase = 0 ∧ r.X5_purchase_frequency = 0 ∧
      r.X6_is_power_user = 0 ∧ r.X7_avg_items_per_purchase = 0 ∧
      r.X8_top_brand_ratio = 0 ∧ r.X9_brand_diversity = 0 ∧
      r.X10_category_diversity_score = 0 ∧ r.X11_purchase_day_mode = 0 ∧
      r.X12_is_new_customer = 0 ∧ r.X13_avg_item_popularity = 0 :=
  ⟨by decide, by decide,
    claim_C9 [⟨2, 10, 7, 1⟩] [] [] 0 5 5 10 (fun _ _ => 1) [(1, 10)] 1 10
      (by decide) (by decide)⟩

/-- Claim C10: the divisions in the customer-level features have positive
divisors: X5 and X7 divide by the clipped day count `max(days_active, 1) ≥ 1`,
and X8 and X10 divide by `total_purchases`, which is at least 1 whenever the
group-by produced a row for the customer (the feature is not `none`). -/
theorem claim_C10 (hist : List Txn) (items : List Item) (c : Int) :
    1 ≤ days_active_clipped hist c ∧
    (X8_of hist items c ≠ none → 1 ≤ total_purchases hist c) ∧
    (X10_of hist items c ≠ none → 1 ≤ total_purchases hist c) := by
  refine ⟨Nat.le_max_right _ _, ?_, ?_⟩
  · intro h
    by_cases he : histOf hist c = []
    · exact absurd (by simp [X8_of, he]) h
    · have := List.length_pos.2 he
      simpa [total_purchases] using this
  · intro h
    by_cases he : histOf hist c = []
    · exact absurd (by simp [X10_of, he]) h
    · have := List.length_pos.2 he
      simpa [total_purchases] using this

/-- Witness for C10 at a concrete input: a customer with one historical
transaction has clipped day count and total purchases at least 1. -/
theorem claim_C10_witness :
    1 ≤ days_active_clipped [(⟨1, 1, 0, 1⟩ : Txn)] 1 ∧
    1 ≤ total_purchases [(⟨1, 1, 0, 1⟩ : Txn)] 1 :=
  ⟨(claim_C10 [⟨1, 1, 0, 1⟩] [] 1).1,
    (claim_C10 [⟨1, 1, 0, 1⟩] [] 1).2.1 (by decide)⟩

/-- Claim C5: `build_item_cooccurrence` emits only pairs with
`itemA < itemB` (a single orientation per unordered pair, never a self-pair),
and on the baskets {(order1,itemA),(order1,itemB),(order2,itemA),(order2,itemB)}
(items 10 and 20, basket key `order_id`) it yields exactly one row, with
`cooc_count = 2`. -/
theorem claim_C5 :
    (∀ (transactions : List Txn) (key : Txn → Int) (r : CoocRow),
      r ∈ build_item_cooccurrence transactions key → r.itemA < r.itemB) ∧
    build_item_cooccurrence [⟨1, 10, 0, 1⟩, ⟨1, 20, 0, 1⟩, ⟨1, 10, 0, 2⟩, ⟨1, 20, 0, 2⟩]
      Txn.order_id = [⟨10, 20, 2⟩] := by
  constructor
  · intro transactions key r hr
    simp only [build_item_cooccurrence, List.mem_insertionSort, List.mem_map,
      List.mem_dedup, List.mem_filter, decide_eq_true_eq] at hr
    obtain ⟨p, ⟨hp, hlt⟩, rfl⟩ := hr
    exact hlt
  · decide

/-- Witness for C5: the row of the concrete scenario is in the co-occurrence
table and satisfies the single-orientation property. -/
theorem claim_C5_witness :
    (⟨10, 20, 2⟩ : CoocRow) ∈ build_item_cooccurrence
      [⟨1, 10, 0, 1⟩, ⟨1, 20, 0, 1⟩, ⟨1, 10, 0, 2⟩, ⟨1, 20, 0, 2⟩] Txn.order_id ∧
    (⟨10, 20, 2⟩ : CoocRow).itemA < (⟨10, 20, 2⟩ : CoocRow).itemB :=
  ⟨by decide, claim_C5.1 [⟨1, 10, 0, 1⟩, ⟨1, 20, 0, 1⟩, ⟨1, 10, 0, 2⟩, ⟨1, 20, 0, 2⟩]
    Txn.order_id ⟨10, 20, 2⟩ (by decide)⟩

/-- Claim C1 fails on the code: `predict_and_rank` computes `rank("dense")` on
the *item* column, not on the score. For one customer with items 1 (score 1/5)
and 2 (score 9/10), the strictly higher-scored item 2 receives rank 2 while
item 1 receives rank 1 — the opposite of "descending by score". -/
theorem claim_C1_eval :
    predict_and_rank [(1, 1), (1, 2)] (fun p => if p.2 == 1 then 1/5 else 9/10) none =
      [⟨1, 2, 9/10, 2⟩, ⟨1, 1, 1/5, 1⟩] ∧ ((1 : ℚ)/5 < 9/10) := by
  constructor
  · simp [predict_and_rank, List.insertionSort, List.orderedInsert, dense_rank_value]
    norm_num [List.filter, List.dedup, List.map]
  · norm_num

/-- Claim C6 fails on the code: `generate_candidates_from_cooc` computes
`rank("dense")` on the `candidate_item` column, not on `total_cooc`. With seed
item 1, partners 2 (weight 1) and 3 (weight 10) and `topn_per_customer = 1`,
the kept candidate is item 2 with the strictly smaller summed weight. -/
theorem claim_C6_eval :
    generate_candidates_from_cooc [(1, 1)] [⟨1, 2, 1⟩, ⟨1, 3, 10⟩] 1 = [(1, 2)] ∧
    total_cooc [(1, 1)] [⟨1, 2, 1⟩, ⟨1, 3, 10⟩] 1 2 = 1 ∧
    total_cooc [(1, 1)] [⟨1, 2, 1⟩, ⟨1, 3, 10⟩] 1 3 = 10 := by decide

/-- Claim C7 fails on the code: `build_feature_label_table` performs no window
validation. Called with overlapping windows `[0,10)` and `[5,10)`
(`begin_recent = 5 < 10 = end_hist`), it produces a feature table instead of
failing: the single transaction at day 7 feeds feature `X1 = 1` and label
`Y = 1` simultaneously (label leakage). -/
theorem claim_C7_eval :
    (build_feature_label_table [⟨1, 100, 7, 1⟩] [⟨100, "b", "a", "c"⟩] [] 0 10 5 10
      (fun _ _ => 1) none).map
      (fun r => (r.customer_id, r.item_id, r.X1_brand_cnt_hist, r.Y)) = [(1, 100, 1, 1)] := by
  decide

/-- Counterexample for C8: with predictions for customers 1 and 2 but ground
truth only for customer 1 at `k = 1`, the implementation averages over the
inner join (value 1), not over all customers with a prediction (value 1/2) as
the claim states. -/
theorem claim_C8_counterexample :
    precision_at_k [⟨1, 10, 1⟩, ⟨2, 20, 1⟩] [⟨1, 10⟩] 1 = 1 ∧
    precision_at_k_spec [⟨1, 10, 1⟩, ⟨2, 20, 1⟩] [⟨1, 10⟩] 1 = 1/2 ∧
    precision_at_k [⟨1, 10, 1⟩, ⟨2, 20, 1⟩] [⟨1, 10⟩] 1 ≠
      precision_at_k_spec [⟨1, 10, 1⟩, ⟨2, 20, 1⟩] [⟨1, 10⟩] 1 := by
  refine ⟨?_, ?_, ?_⟩
  · simp [precision_at_k, joined_customers, precision_per_customer,
      top_k_items, actual_items, List.insertionSort, List.orderedInsert]
  · simp [precision_at_k_spec, precision_per_customer,
      top_k_items, actual_items, List.insertionSort, List.orderedInsert]
  · simp [precision_at_k, precision_at_k_spec, joined_customers, precision_per_customer,
      top_k_items, actual_items, List.insertionSort, List.orderedInsert]

/-- Every inner-joined customer has a nonempty ground-truth item set, so the
empty-`actual_set` skip of `mean_average_precision_at_k` never fires inside
the join. -/
theorem actual_items_ne_nil_of_joined (predictions : List PredRow)
    (ground_truth : List GtRow) (c : Int)
    (h : c ∈ joined_customers predictions ground_truth) :
    actual_items ground_truth c ≠ [] := by
  simp only [joined_customers, List.mem_filter, List.elem_iff, List.mem_map] at h
  obtain ⟨-, g, hg, hgc⟩ := h
  intro hnil
  have hmem : g.item_id ∈ actual_items ground_truth c := by
    simp only [actual_items, List.mem_dedup, List.mem_map, List.mem_filter]
    exact ⟨g, ⟨hg, by simp [hgc]⟩, rfl⟩
  rw [hnil] at hmem
  exact absurd hmem (List.not_mem_nil _)

/-- Inside the inner join the nonempty-ground-truth filter of
`mean_average_precision_at_k` keeps every customer. -/
theorem map_filter_eq_joined (predictions : List PredRow) (ground_truth : List GtRow) :
    (joined_customers predictions ground_truth).filter
      (fun c => !(actual_items ground_truth c).isEmpty) =
      joined_customers predictions ground_truth :=
  List.filter_eq_self.2 (fun c hc => by
    have hne := actual_items_ne_nil_of_joined predictions ground_truth c hc
    simp [List.isEmpty_iff]
    exact hne)

/-- Claim C8 as amended: all four per-K metrics — `precision_at_k`,
`recall_at_k`, `ndcg_at_k` and `mean_average_precision_at_k` — are the
unweighted mean of the per-customer values over exactly the customers that
have at least one prediction row AND at least one ground-truth row (the inner
join); customers with predictions but no ground-truth entry are excluded. -/
theorem claim_C8_amended (predictions : List PredRow) (ground_truth : List GtRow) (k : Nat) :
    (∀ c : Int, c ∈ joined_customers predictions ground_truth ↔
      ((∃ r ∈ predictions, r.customer_id = c) ∧ (∃ g ∈ ground_truth, g.customer_id = c))) ∧
    (joined_customers predictions ground_truth ≠ [] →
      precision_at_k predictions ground_truth k =
        ((joined_customers predictions ground_truth).map
          (precision_per_customer predictions ground_truth k)).sum /
          ((joined_customers predictions ground_truth).length : ℚ) ∧
      recall_at_k predictions ground_truth k =
        ((joined_customers predictions ground_truth).map
          (recall_per_customer predictions ground_truth k)).sum /
          ((joined_customers predictions ground_truth).length : ℚ) ∧
      ndcg_at_k predictions ground_truth k =
        ((joined_customers predictions ground_truth).map
          (ndcg_per_customer predictions ground_truth k)).sum /
          ((joined_customers predictions ground_truth).length : ℝ) ∧
      mean_average_precision_at_k predictions ground_truth k =
        ((joined_customers predictions ground_truth).map
          (ap_per_customer predictions ground_truth k)).sum /
          ((joined_customers predictions ground_truth).length : ℚ)) := by
  constructor
  · intro c
    simp only [joined_customers, List.mem_filter, List.mem_dedup, List.mem_map, List.elem_iff]
  · intro h
    refine ⟨by simp [precision_at_k, h], by simp [recall_at_k, h], by simp [ndcg_at_k, h], ?_⟩
    rw [mean_average_precision_at_k]
    simp only [map_filter_eq_joined predictions ground_truth]
    rw [if_neg h]

/-- Witness for C8 (amended) at a concrete input with a nonempty inner join. -/
theorem claim_C8_witness :
    precision_at_k [(⟨1, 10, 1⟩ : PredRow)] [(⟨1, 10⟩ : GtRow)] 1 =
      ((joined_customers [(⟨1, 10, 1⟩ : PredRow)] [(⟨1, 10⟩ : GtRow)]).map
        (precision_per_customer [(⟨1, 10, 1⟩ : PredRow)] [(⟨1, 10⟩ : GtRow)] 1)).sum /
        ((joined_customers [(⟨1, 10, 1⟩ : PredRow)] [(⟨1, 10⟩ : GtRow)]).length : ℚ) ∧
    recall_at_k [(⟨1, 10, 1⟩ : PredRow)] [(⟨1, 10⟩ : GtRow)] 1 =
      ((joined_customers [(⟨1, 10, 1⟩ : PredRow)] [(⟨1, 10⟩ : GtRow)]).map
        (recall_per_customer [(⟨1, 10, 1⟩ : PredRow)] [(⟨1, 10⟩ : GtRow)] 1)).sum /
        ((joined_customers [(⟨1, 10, 1⟩ : PredRow)] [(⟨1, 10⟩ : GtRow)]).length : ℚ) ∧
    ndcg_at_k [(⟨1, 10, 1⟩ : PredRow)] [(⟨1, 10⟩ : GtRow)] 1 =
      ((joined_customers [(⟨1, 10, 1⟩ : PredRow)] [(⟨1, 10⟩ : GtRow)]).map
        (ndcg_per_customer [(⟨1, 10, 1⟩ : PredRow)] [(⟨1, 10⟩ : GtRow)] 1)).sum /
        ((joined_customers [(⟨1, 10, 1⟩ : PredRow)] [(⟨1, 10⟩ : GtRow)]).length : ℝ) ∧
    mean_average_precision_at_k [(⟨1, 10, 1⟩ : PredRow)] [(⟨1, 10⟩ : GtRow)] 1 =
      ((joined_customers [(⟨1, 10, 1⟩ : PredRow)] [(⟨1, 10⟩ : GtRow)]).map
        (ap_per_customer [(⟨1, 10, 1⟩ : PredRow)] [(⟨1, 10⟩ : GtRow)] 1)).sum /
        ((joined_customers [(⟨1, 10, 1⟩ : PredRow)] [(⟨1, 10⟩ : GtRow)]).length : ℚ) :=
  (claim_C8_amended [⟨1, 10, 1⟩] [⟨1, 10⟩] 1).2 (by decide)
